import Mathlib

/-!
Shallow embedding of the mozautodbg build-hook pipeline
(src/mozautodbg/build_hook.py) and proofs about its specification.

Python strings are modelled as Lean `String`s (lists of characters);
Python string helpers (strip, startswith, split, replace, repr) are
re-implemented below on `List Char`.  The filesystem is a finite map
from path to (content, mtime); the environment is a partial map from
variable name to value; git and the mach process are oracles supplied
as function-valued parameters.
-/

namespace Mozautodbg

/-- ASCII whitespace as recognised by Python str.strip() and by the
regex class \s (space, tab, newline, carriage return, vertical tab,
form feed). -/
def pySpace (c : Char) : Bool :=
  c = ' ' || c = '\t' || c = '\n' || c = '\x0d' || c = '\x0b' || c = '\x0c'

/-- Python str.strip(): drop leading and trailing whitespace. -/
def pyStripChars (l : List Char) : List Char :=
  ((l.dropWhile pySpace).reverse.dropWhile pySpace).reverse

/-- Python str.strip() on a String. -/
def pyStrip (s : String) : String :=
  String.mk (pyStripChars s.data)

/-- Split a character list at every occurrence of the character c. -/
def splitOnCh (c : Char) : List Char → List (List Char)
  | [] => [[]]
  | a :: as =>
    if a = c then [] :: splitOnCh c as
    else
      match splitOnCh c as with
      | [] => [[a]]
      | h :: t => (a :: h) :: t

/-- Python str.splitlines() restricted to newline-separated text with no
trailing newline (the only shape it is applied to here: the stripped
stdout of a git command). The empty string yields no lines. -/
def pySplitlines (l : List Char) : List (List Char) :=
  if l = [] then [] else splitOnCh '\n' l

/-- Match a literal character sequence at the front of a list; on success
return the remainder. -/
def dropLit : List Char → List Char → Option (List Char)
  | [], l => some l
  | _ :: _, [] => none
  | p :: ps, c :: cs => if c = p then dropLit ps cs else none

/-- Python str.replace(pat, rep) for a non-empty pattern, by fuel (the
fuel is the length of the subject, which bounds the number of steps).
Scans left to right, replacing non-overlapping occurrences. -/
def pyReplaceAux (pat rep : List Char) : Nat → List Char → List Char
  | _, [] => []
  | 0, s => s
  | Nat.succ n, c :: cs =>
    match dropLit pat (c :: cs) with
    | some r => rep ++ pyReplaceAux pat rep n r
    | none => c :: pyReplaceAux pat rep n cs

/-- Python str.replace for a non-empty pattern. -/
def pyReplace (pat rep s : List Char) : List Char :=
  pyReplaceAux pat rep s.length s

/-- Match of the regex (from extract_moz_objdir, build_hook.py line 166)
  mk_add_options\s+MOZ_OBJDIR=(.+)
anchored at the start of an already-stripped line: the literal
mk_add_options, at least one whitespace character, the literal
MOZ_OBJDIR=, and a non-empty remainder (the captured group). Returns
the captured group. -/
def parseMozLine (l : List Char) : Option (List Char) :=
  match dropLit ("mk_add_options").data l with
  | none => none
  | some r1 =>
    if (r1.takeWhile pySpace).isEmpty then none
    else
      match dropLit ("MOZ_OBJDIR=").data (r1.dropWhile pySpace) with
      | none => none
      | some v => if v.isEmpty then none else some v

/-- First matching line of the file: each line is stripped and matched
against the MOZ_OBJDIR pattern; the first match yields group(1).strip()
(no placeholder substitution yet). -/
def extractFromLinesRaw : List (List Char) → Option (List Char)
  | [] => none
  | l :: ls =>
    match parseMozLine (pyStripChars l) with
    | some v => some (pyStripChars v)
    | none => extractFromLinesRaw ls

/-- Body of extract_moz_objdir over the sequence of lines of the file:
the first matching value with every occurrence of the literal
@TOPSRCDIR@ replaced by os.curdir, which is the one-character string
consisting of a dot (build_hook.py line 174). -/
def extractFromLines (ls : List (List Char)) : Option (List Char) :=
  (extractFromLinesRaw ls).map (pyReplace ("@TOPSRCDIR@").data (".").data)

/-- extract_moz_objdir (build_hook.py lines 153-175), applied to the
content of the mozconfig file. Iterating over a Python file yields its
newline-terminated chunks; since every chunk is stripped before
matching, splitting the content at newline characters is equivalent. -/
def extractMozObjdir (text : String) : Option String :=
  (extractFromLines (splitOnCh '\n' text.data)).map String.mk

/-- Modelled from the spec: the wording of the spec (section 6 and the
C2 scenario) says the placeholder token in the MOZ_OBJDIR value is
substituted with the current working directory; this definition follows
those words, taking the working directory as an explicit argument. It
exists only for comparison with extractMozObjdir, which is translated
from the source. -/
def extractMozObjdirSpecCwd (cwd : String) (text : String) : Option String :=
  ((extractFromLinesRaw (splitOnCh '\n' text.data)).map
    (pyReplace ("@TOPSRCDIR@").data cwd.data)).map String.mk

/-- Lexicographic comparison of character lists by code point, the
order Python uses to compare strings: the empty list precedes
everything, and lists with equal heads are ordered by their tails. -/
def clLe : List Char → List Char → Bool
  | [], _ => true
  | _ :: _, [] => false
  | a :: as, b :: bs => if a = b then clLe as bs else decide (a < b)

/-- Python string order (code-point lexicographic), as a proposition. -/
def strLe (a b : String) : Prop :=
  clLe a.data b.data = true

instance : DecidableRel strLe :=
  fun a b => instDecidableEqBool (clLe a.data b.data) true

/-- Normalization of one ignore entry (build_hook.py line 203): ensure
the entry ends with a slash. -/
def normIgn (i : String) : String :=
  if i.data.getLast? = some '/' then i else i ++ "/"

/-- Python s[:-1]: drop the last character. -/
def dropLastStr (s : String) : String :=
  String.mk s.data.dropLast

/-- The filter predicate of build_hook.py line 211: directory d is kept
iff no normalized ignore entry ign satisfies d == ign[:-1] or
d.startswith(ign). -/
def keptDir (ignN : List String) (d : String) : Bool :=
  !(ignN.any (fun ign => d == dropLastStr ign || ign.data.isPrefixOf d.data))

/-- The directory-set combiner (build_hook.py lines 199-213): the union
of changed and include directories, with directories matching an ignore
entry removed, sorted ascending. Python iterates a set and sorts the
result; this is modelled as dedup, filter, insertion sort. -/
def combine (changed includeDirs ignoreDirs : List String) : List String :=
  let union := (changed ++ includeDirs).dedup
  let ignN := ignoreDirs.map normIgn
  List.insertionSort strLe (union.filter (keptDir ignN))

/-- An exclude entry with its trailing path separator (if any) stripped:
the spec-level notion used to state the C3 invariant. -/
def stripTrailSep (e : String) : String :=
  if e.data.getLast? = some '/' then dropLastStr e else e

/-- The apostrophe character (ASCII 39), the default quote of Python
repr. -/
def sqChar : Char := Char.ofNat 39

/-- The double-quote character (ASCII 34). -/
def dqChar : Char := Char.ofNat 34

/-- Escaping of one character inside a Python string repr quoted with q:
backslash, the quote character itself, newline, carriage return and tab
are escaped; other (printable) characters are kept. The strings handled
here are directory names, which contain no other control characters. -/
def pyEscChar (q c : Char) : List Char :=
  if c = '\\' then ['\\', '\\']
  else if c = q then ['\\', q]
  else if c = '\n' then ['\\', 'n']
  else if c = '\x0d' then ['\\', 'r']
  else if c = '\t' then ['\\', 't']
  else [c]

/-- Python repr of a string: quoted with an apostrophe, except that a
string containing an apostrophe and no double quote is quoted with
double quotes. -/
def pyReprStr (s : String) : String :=
  let q := if s.data.contains sqChar && !(s.data.contains dqChar)
           then dqChar else sqChar
  String.mk (q :: ((s.data.map (pyEscChar q)).flatten ++ [q]))

/-- Join a list of strings with a separator. -/
def joinSep (sep : String) : List String → String
  | [] => ""
  | [s] => s
  | s :: rest => s ++ sep ++ joinSep sep rest

/-- Python repr of a list of strings. -/
def pyReprStrList (l : List String) : String :=
  ("[") ++ joinSep (", ") (l.map pyReprStr) ++ ("]")

/-- The rendered hook artifact (build_hook.py lines 122-128): the
directory list assigned to noopt, followed by the fixed template that
clears the optimization flags of any matching relative directory, the
four lines joined by newlines plus one trailing newline. -/
def hookContent (directories : List String) : String :=
  joinSep ("\n")
    [ ("noopt = ") ++ pyReprStrList directories,
      ("for no in noopt:"),
      ("    if RELATIVEDIR.startswith(no):"),
      ("        COMPILE_FLAGS[") ++ String.mk [sqChar] ++ ("OPTIMIZE")
        ++ String.mk [sqChar] ++ ("] = []") ] ++ ("\n")

/-- A filesystem: a map from path to (content, mtime). -/
def FS : Type := String → Option (String × Nat)

/-- Write (create or overwrite) a file, stamping it with time t. -/
def FS.write (fs : FS) (p c : String) (t : Nat) : FS :=
  fun q => if q = p then some (c, t) else fs q

/-- The content of a file, if it exists. -/
def FS.contentOf (fs : FS) (p : String) : Option String :=
  (fs p).map Prod.fst

/-- A process environment: a partial map from variable name to value. -/
def Env : Type := String → Option String

/-- Set one environment variable. -/
def Env.set (env : Env) (k v : String) : Env :=
  fun q => if q = k then some v else env q

/-- Path segments of a POSIX path as pathlib parses them: split at
slashes, dropping empty segments and single-dot segments. -/
def pathSegs (p : String) : List String :=
  ((splitOnCh '/' p.data).map String.mk).filter
    (fun s => !(s == "") && !(s == (".")))

/-- Process parent-dir segments: a double-dot segment removes the
preceding segment, as Path.resolve does (symlinks aside). -/
def resolveSegs (segs : List String) : List String :=
  segs.foldl (fun acc s => if s = ("..") then acc.dropLast else acc ++ [s]) []

/-- Path.resolve(): make the path absolute against the working
directory (itself absolute) and normalize dot and double-dot segments. -/
def resolvePath (cwd p : String) : String :=
  let segs := if p.data.head? = some '/' then pathSegs p
              else pathSegs cwd ++ pathSegs p
  ("/") ++ joinSep ("/") (resolveSegs segs)

/-- Errors raised by the Python code: an uncaught KeyError from an
os.environ lookup, an uncaught FileNotFoundError from open, and
sys.exit with a message or a numeric code. -/
inductive PyErr where
  | keyErr (k : String)
  | fileNotFound (p : String)
  | sysExitMsg (m : String)
  | sysExitCode (n : Nat)
deriving DecidableEq

/-- write_build_hook (build_hook.py lines 115-150) up to its yield: the
environment lookup of MOZCONFIG (a KeyError if absent), reading that
file (a FileNotFoundError if absent), objdir extraction, and either the
stable-cache branch (touch the file if missing, read it, overwrite only
when the content differs) or the temporary-file branch. Returns the
filesystem as it stands at the yield together with the yielded path.

In the temporary branch, NamedTemporaryFile creates the file empty and
the subsequent write is buffered in user space: nothing is flushed
before the yield while the written content is shorter than the default
8 KiB buffer, so the on-disk content at the yield is empty in that
regime (and the buffer only starts draining beyond it, modelled here
conservatively as fully flushed). -/
def write_build_hook (directories : List String) (env : Env) (fs : FS)
    (cwd tmpName : String) (now : Nat) : Except PyErr (FS × String) :=
  let hook_content := hookContent directories
  match env ("MOZCONFIG") with
  | none => .error (.keyErr ("MOZCONFIG"))
  | some mozconfigPath =>
    match fs.contentOf mozconfigPath with
    | none => .error (.fileNotFound mozconfigPath)
    | some cfgText =>
      match extractMozObjdir cfgText with
      | some objdir =>
        let hook_filename := resolvePath cwd (objdir ++ ("/.build_hook"))
        let fs1 := if (fs hook_filename).isSome then fs
                   else fs.write hook_filename ("") now
        let old_hook_content := (fs1.contentOf hook_filename).getD ("")
        if old_hook_content = hook_content then .ok (fs1, hook_filename)
        else .ok (fs1.write hook_filename hook_content now, hook_filename)
      | none =>
        let onDisk := if hook_content.length < 8192 then ("") else hook_content
        .ok (fs.write tmpName onDisk now, tmpName)

/-- Python truthiness of an optional string: None and the empty string
are falsy. -/
def pyTruthy : Option String → Bool
  | none => false
  | some s => !(s == "")

/-- Read-only view of the git queries used by the pipeline. Each field
returns the raw stdout of the query, or none when the command exits
non-zero (check_output raises CalledProcessError). -/
structure GitEnv where
  verifyRef : String → Bool
  currentBranch : Option String
  mergeBase : String → String → Option String

/-- Default-branch resolution inside get_local_merge_base (build_hook.py
lines 41-61): a truthy configured branch wins; otherwise the literal
names main then master are probed with git rev-parse --verify and the
first that exists is taken; if neither exists the invocation exits. -/
def resolveDefaultBranch (cfgBranch : Option String) (git : GitEnv) :
    Except PyErr String :=
  if pyTruthy cfgBranch then .ok (cfgBranch.getD (""))
  else
    match [("main"), ("master")].find? git.verifyRef with
    | some b => .ok b
    | none =>
      .error (.sysExitMsg ("Error: Unable to find a default branch main or master."))

/-- get_local_merge_base (build_hook.py lines 16-85). A truthy override
is used directly as the merge-base target. Otherwise the default branch
is resolved, the current branch is read (stripped stdout of git
rev-parse --abbrev-ref HEAD), the target is origin/<default> when the
current branch equals the default branch and the default branch itself
otherwise, and the stripped merge-base output is returned. Every failed
git query exits the invocation. -/
def get_local_merge_base (base_override : Option String)
    (cfgBranch : Option String) (git : GitEnv) : Except PyErr String :=
  if pyTruthy base_override then
    match git.mergeBase ("HEAD") (base_override.getD ("")) with
    | some out => .ok (pyStrip out)
    | none => .error (.sysExitCode 1)
  else
    match resolveDefaultBranch cfgBranch git with
    | .error e => .error e
    | .ok default_branch =>
      match git.currentBranch with
      | none => .error (.sysExitMsg ("Error: Unable to determine the current branch."))
      | some cbRaw =>
        let current_branch := pyStrip cbRaw
        let target := if current_branch = default_branch
                      then ("origin/") ++ default_branch else default_branch
        match git.mergeBase ("HEAD") target with
        | some out => .ok (pyStrip out)
        | none =>
          .error (.sysExitMsg (("Error: Unable to determine merge base with branch ")
            ++ target ++ (".")))

/-- The three diff queries of get_changed_directories, each keyed by the
merge base and returning raw stdout, or none on failure. -/
structure DiffOracle where
  committed : String → Option String
  unstaged : String → Option String
  staged : String → Option String

/-- str(Path(f).parent): parse the path into segments as pathlib does
(dropping empty and single-dot segments), drop the last segment, and
render the result; the parent of a single-segment relative path is the
single-dot path. -/
def pathParent (f : String) : String :=
  let isAbs := f.data.head? = some '/'
  let par := (pathSegs f).dropLast
  if isAbs then ("/") ++ joinSep ("/") par
  else if par = [] then (".") else joinSep ("/") par

/-- get_changed_directories (build_hook.py lines 88-112): run the
committed, unstaged and staged diff queries in that order (any failure
exits the invocation), union the reported file paths, map every path to
its parent directory, drop paths whose parent is the repository root,
and return the directories sorted ascending. -/
def get_changed_directories (merge_base : String) (diffs : DiffOracle) :
    Except PyErr (List String) :=
  let failMsg : PyErr :=
    .sysExitMsg ("Error: Unable to determine changed files. Are you in a git repository?")
  match diffs.committed merge_base with
  | none => .error failMsg
  | some o1 =>
    match diffs.unstaged merge_base with
    | none => .error failMsg
    | some o2 =>
      match diffs.staged merge_base with
      | none => .error failMsg
      | some o3 =>
        let changed_files :=
          (pySplitlines (pyStripChars o1.data) ++ pySplitlines (pyStripChars o2.data)
            ++ pySplitlines (pyStripChars o3.data)).map String.mk
        let dirs := ((changed_files.map pathParent).filter
          (fun d => !(d == (".")))).dedup
        .ok (List.insertionSort strLe dirs)

/-- Result of one driver invocation: either no external process was
launched (exit code 0 when no mach arguments were given), or ./mach was
launched with the given argument vector and environment, returning the
given exit code. -/
inductive ExecOutcome where
  | noLaunch (code : Int)
  | launched (argv : List String) (envAtLaunch : Env) (code : Int)

/-- Ambient state and oracles of one driver invocation. -/
structure World where
  cfgBranch : Option String
  git : GitEnv
  diffs : DiffOracle
  env : Env
  fs : FS
  cwd : String
  tmpName : String
  now : Nat
  machExit : List String → Env → Int

/-- execute_mach (build_hook.py lines 178-238): resolve the merge base,
collect changed directories, combine them with the include and ignore
lists, export a truthy MOZCONFIG override, synthesize the hook, and
then - only when show_hook is set - read the hook file back from disk
and export MOZ_BUILD_HOOK; finally, when mach arguments are present,
launch ./mach with them in the current environment and propagate its
exit code, otherwise return 0. -/
def execute_mach (mozconfig base : Option String) (show_hook : Bool)
    (includeDirs ignoreDirs mach_args : List String) (w : World) :
    Except PyErr ExecOutcome :=
  match get_local_merge_base base w.cfgBranch w.git with
  | .error e => .error e
  | .ok merge_base =>
    match get_changed_directories merge_base w.diffs with
    | .error e => .error e
    | .ok changed_dirs =>
      let final_dirs := combine changed_dirs includeDirs ignoreDirs
      let env1 := if pyTruthy mozconfig then w.env.set ("MOZCONFIG") (mozconfig.getD (""))
                  else w.env
      match write_build_hook final_dirs env1 w.fs w.cwd w.tmpName w.now with
      | .error e => .error e
      | .ok (fs2, hook_path) =>
        let afterShow : Except PyErr Env :=
          if show_hook then
            match fs2.contentOf hook_path with
            | none => .error (.fileNotFound hook_path)
            | some _hook_content => .ok (env1.set ("MOZ_BUILD_HOOK") hook_path)
          else .ok env1
        match afterShow with
        | .error e => .error e
        | .ok env2 =>
          if mach_args.isEmpty then .ok (.noLaunch 0)
          else
            let mach_cmd := ("./mach") :: mach_args
            .ok (.launched mach_cmd env2 (w.machExit mach_cmd env2))

/-- A concrete environment holding only MOZCONFIG. -/
def envA : Env :=
  fun k => if k = ("MOZCONFIG") then some ("/home/u/mozconfig") else none

/-- A concrete filesystem whose mozconfig has no MOZ_OBJDIR line. -/
def fsNoObjdir : FS :=
  fun p => if p = ("/home/u/mozconfig") then some (("ac_add_options --enable-debug\n"), 0)
           else none

/-- A concrete filesystem whose mozconfig names /obj as objdir and whose
stable hook file exists with stale content. -/
def fsStable : FS :=
  fun p => if p = ("/home/u/mozconfig") then some (("mk_add_options MOZ_OBJDIR=/obj\n"), 0)
           else if p = ("/obj/.build_hook") then some (("stale"), 1)
           else none

/-- A concrete git view: every ref exists, HEAD is on branch feature,
and every merge-base query answers abc123. -/
def gitA : GitEnv :=
  ⟨fun _ => true, some ("feature\n"), fun _ _ => some ("abc123\n")⟩

/-- A concrete git view where HEAD is on branch main and the merge-base
query answers base99 for the upstream ref origin/main and other99 for
every other target. -/
def gitB : GitEnv :=
  ⟨fun _ => true, some ("main\n"),
   fun _ t => if t = ("origin/main") then some ("base99\n") else some ("other99\n")⟩

/-- A concrete diff view reporting no changed files. -/
def diffsEmpty : DiffOracle :=
  ⟨fun _ => some (""), fun _ => some (""), fun _ => some ("")⟩

/-- A concrete invocation world: configured default branch main, gitA,
no changed files, envA, a mozconfig without MOZ_OBJDIR (so the hook
falls back to the temporary file), and an external mach that exits
with code 7. -/
def worldA : World :=
  ⟨some ("main"), gitA, diffsEmpty, envA, fsNoObjdir,
   ("/src"), ("/tmp/hook.py"), 5, fun _ _ => 7⟩

/-- The lexicographic comparison is total. -/
theorem clLe_total : ∀ a b : List Char, clLe a b = true ∨ clLe b a = true
  | [], _ => Or.inl rfl
  | _ :: _, [] => Or.inr rfl
  | a :: as, b :: bs => by
    by_cases hab : a = b
    · subst hab
      simp only [clLe, if_pos rfl]
      exact clLe_total as bs
    · have hba : ¬ b = a := fun h => hab h.symm
      simp only [clLe, if_neg hab, if_neg hba, decide_eq_true_eq]
      exact lt_or_gt_of_ne hab

/-- The lexicographic comparison is transitive. -/
theorem clLe_trans : ∀ a b c : List Char,
    clLe a b = true → clLe b c = true → clLe a c = true
  | [], _, _, _, _ => rfl
  | _ :: _, [], _, h1, _ => by simp [clLe] at h1
  | _ :: _, _ :: _, [], _, h2 => by simp [clLe] at h2
  | a :: as, b :: bs, c :: cs, h1, h2 => by
    simp only [clLe] at h1 h2 ⊢
    by_cases hab : a = b <;> by_cases hbc : b = c
    · subst hab; subst hbc
      rw [if_pos rfl] at h1 h2 ⊢
      exact clLe_trans as bs cs h1 h2
    · subst hab
      rw [if_pos rfl] at h1
      rw [if_neg hbc] at h2 ⊢
      exact h2
    · subst hbc
      rw [if_neg hab] at h1 ⊢
      exact h1
    · rw [if_neg hab, decide_eq_true_eq] at h1
      rw [if_neg hbc, decide_eq_true_eq] at h2
      have hac : a < c := lt_trans h1 h2
      rw [if_neg (ne_of_lt hac), decide_eq_true_eq]
      exact hac

/-- The lexicographic comparison is antisymmetric. -/
theorem clLe_antisymm : ∀ a b : List Char,
    clLe a b = true → clLe b a = true → a = b
  | [], [], _, _ => rfl
  | [], _ :: _, _, h2 => by simp [clLe] at h2
  | _ :: _, [], h1, _ => by simp [clLe] at h1
  | a :: as, b :: bs, h1, h2 => by
    simp only [clLe] at h1 h2
    by_cases hab : a = b
    · subst hab
      rw [if_pos rfl] at h1 h2
      rw [clLe_antisymm as bs h1 h2]
    · have hba : ¬ b = a := fun h => hab h.symm
      rw [if_neg hab, decide_eq_true_eq] at h1
      rw [if_neg hba, decide_eq_true_eq] at h2
      exact absurd h2 (lt_asymm h1)

/-- Equality of strings follows from equality of their character data. -/
theorem strExt {s t : String} (h : s.data = t.data) : s = t := by
  cases s; cases t; exact congrArg String.mk h

/-- Membership in the combined directory set: exactly the changed or
included directories that survive the ignore filter. -/
theorem mem_combine_iff (changed includeDirs ignoreDirs : List String) (d : String) :
    d ∈ combine changed includeDirs ignoreDirs ↔
      d ∈ changed ++ includeDirs ∧ keptDir (ignoreDirs.map normIgn) d = true := by
  unfold combine
  rw [List.mem_insertionSort, List.mem_filter, List.mem_dedup]

/-- The combined directory set is sorted in Python string order. -/
theorem combine_sorted (changed includeDirs ignoreDirs : List String) :
    (combine changed includeDirs ignoreDirs).Sorted strLe := by
  letI : IsTotal String strLe := ⟨fun a b => clLe_total a.data b.data⟩
  letI : IsTrans String strLe := ⟨fun a b c => clLe_trans a.data b.data c.data⟩
  exact List.sorted_insertionSort strLe _

/-- The combined directory set has no duplicates. -/
theorem combine_nodup (changed includeDirs ignoreDirs : List String) :
    (combine changed includeDirs ignoreDirs).Nodup := by
  unfold combine
  exact ((List.perm_insertionSort strLe _).nodup_iff).mpr
    ((List.nodup_dedup _).filter _)

/-- Normalizing an ignore entry appends a slash to the entry with its
trailing separator (if any) stripped. -/
theorem normIgn_eq (e : String) : normIgn e = stripTrailSep e ++ ("/") := by
  unfold normIgn stripTrailSep
  rcases h : e.data.getLast? with _ | c
  · simp [h]
  · by_cases hc : c = '/'
    · subst hc
      rw [if_pos rfl, if_pos rfl]
      apply strExt
      rw [String.data_append]
      exact (List.dropLast_append_getLast? '/' h).symm
    · have hne : ¬ (some c = some '/') := fun hx => hc (Option.some.inj hx)
      rw [if_neg hne, if_neg hne]

/-- Dropping the last character of a normalized ignore entry yields the
entry with its trailing separator stripped. -/
theorem dropLastStr_normIgn (e : String) :
    dropLastStr (normIgn e) = stripTrailSep e := by
  rw [normIgn_eq]
  apply strExt
  show ((stripTrailSep e ++ ("/")).data).dropLast = _
  rw [String.data_append]
  exact List.dropLast_concat

/-- C3: for all sets of changed, include and exclude directories, the
final directory set contains no element equal to an exclude entry with
its trailing separator stripped, and no element that begins with an
exclude entry on a full path-segment boundary (the stripped entry
followed by a slash); in particular an exclude entry foo never removes
a sibling directory foobar. -/
theorem c3_exclude_invariant (changed includeDirs ignoreDirs : List String)
    (d e : String) (hd : d ∈ combine changed includeDirs ignoreDirs)
    (he : e ∈ ignoreDirs) :
    d ≠ stripTrailSep e ∧ ¬ (stripTrailSep e ++ ("/")).data <+: d.data := by
  rw [mem_combine_iff] at hd
  have hkept := hd.2
  unfold keptDir at hkept
  rw [Bool.not_eq_eq_eq_not, Bool.not_true] at hkept
  have hall := List.any_eq_false.mp hkept (normIgn e)
    (List.mem_map_of_mem normIgn he)
  rw [Bool.not_eq_true, Bool.or_eq_false_iff] at hall
  constructor
  · intro hde
    have : (d == dropLastStr (normIgn e)) = true := by
      rw [beq_iff_eq, dropLastStr_normIgn]
      exact hde
    rw [this] at hall
    exact Bool.noConfusion hall.1
  · intro hpre
    have : (normIgn e).data.isPrefixOf d.data = true := by
      rw [ List.isPrefixOf_iff_prefix]
      rw [normIgn_eq]
      exact hpre
    rw [this] at hall
    exact Bool.noConfusion hall.2

/-- Witness for C3: the directory foobar survives the exclude entry foo
and indeed is neither equal to the stripped entry nor segment-prefixed
by it. -/
theorem c3_exclude_invariant_witness :
    ("foobar") ∈ combine [("foobar")] [] [("foo")] ∧
      (("foobar") ≠ stripTrailSep ("foo") ∧
        ¬ (stripTrailSep ("foo") ++ ("/")).data <+: ("foobar" : String).data) :=
  ⟨by decide,
   c3_exclude_invariant [("foobar")] [] [("foo")] ("foobar") ("foo")
     (by decide) (by decide)⟩

/-- C7: for changed directories a/b and c, include d and exclude a, the
combiner returns exactly the sorted final set consisting of c and d;
a/b is removed because it begins with the normalized exclude entry. -/
theorem c7_combine_scenario :
    combine [("a/b"), ("c")] [("d")] [("a")] = [("c"), ("d")] := by decide

/-- C8: the combine step is idempotent: re-running combine on its own
output with the same include and exclude lists yields the same final
directory set. -/
theorem c8_combine_idempotent (changed includeDirs ignoreDirs : List String) :
    combine (combine changed includeDirs ignoreDirs) includeDirs ignoreDirs =
      combine changed includeDirs ignoreDirs := by
  letI : IsAntisymm String strLe :=
    ⟨fun a b h1 h2 => strExt (clLe_antisymm a.data b.data h1 h2)⟩
  apply List.eq_of_perm_of_sorted ?_ (combine_sorted ..) (combine_sorted ..)
  rw [List.perm_ext_iff_of_nodup (combine_nodup ..) (combine_nodup ..)]
  intro x
  rw [mem_combine_iff]
  constructor
  · rintro ⟨hx, hk⟩
    rcases List.mem_append.mp hx with hL | hi
    · exact hL
    · exact (mem_combine_iff ..).mpr ⟨List.mem_append.mpr (Or.inr hi), hk⟩
  · intro hL
    exact ⟨List.mem_append.mpr (Or.inl hL), ((mem_combine_iff ..).mp hL).2⟩

/-- Counterexample for C2: on the build-configuration line of the spec
scenario the code substitutes the placeholder with the literal dot
(os.curdir) and returns ./obj, which differs from the value predicted
by the claim (the working directory, here /src, concatenated with /obj)
as computed by the spec-following definition. -/
theorem c2_placeholder_counterexample :
    extractMozObjdir ("mk_add_options MOZ_OBJDIR=@TOPSRCDIR@/obj\n") = some ("./obj") ∧
      extractMozObjdirSpecCwd ("/src") ("mk_add_options MOZ_OBJDIR=@TOPSRCDIR@/obj\n")
        = some ("/src/obj") ∧
      extractMozObjdir ("mk_add_options MOZ_OBJDIR=@TOPSRCDIR@/obj\n") ≠
        extractMozObjdirSpecCwd ("/src") ("mk_add_options MOZ_OBJDIR=@TOPSRCDIR@/obj\n") := by
  decide

/-- The per-line scan returns the stripped captured group of the first
matching line: every line before it fails the match and the lines after
it are arbitrary. -/
theorem extractFromLinesRaw_first_match (pre post : List (List Char))
    (l v : List Char)
    (hpre : ∀ x ∈ pre, parseMozLine (pyStripChars x) = none)
    (hl : parseMozLine (pyStripChars l) = some v) :
    extractFromLinesRaw (pre ++ l :: post) = some (pyStripChars v) := by
  induction pre with
  | nil =>
    rw [List.nil_append]
    unfold extractFromLinesRaw
    rw [hl]
  | cons x xs ih =>
    rw [List.cons_append]
    unfold extractFromLinesRaw
    rw [hpre x (List.mem_cons_self x xs)]
    exact ih (fun y hy => hpre y (List.mem_cons_of_mem x hy))

/-- C2 (amended): for every build-configuration file whose first
matching line is mk_add_options MOZ_OBJDIR=<value> (the lines before it
fail the match, the line itself captures <value>, the lines after it
are arbitrary), extract_moz_objdir returns the stripped <value> with
every occurrence of the placeholder token @TOPSRCDIR@ replaced by the
one-character relative reference to the current working directory
(os.curdir), rather than by the working directory itself. -/
theorem c2_placeholder_amended (text : String) (pre post : List (List Char))
    (l v : List Char)
    (hsplit : splitOnCh '\n' text.data = pre ++ l :: post)
    (hpre : ∀ x ∈ pre, parseMozLine (pyStripChars x) = none)
    (hl : parseMozLine (pyStripChars l) = some v) :
    extractMozObjdir text =
      some (String.mk (pyReplace (("@TOPSRCDIR@" : String).data)
        (("." : String).data) (pyStripChars v))) := by
  unfold extractMozObjdir extractFromLines
  rw [hsplit]
  rw [extractFromLinesRaw_first_match pre post l v hpre hl]
  rfl

/-- Witness for C2 (amended): a file with one non-matching comment line
before the scenario line, whose captured value @TOPSRCDIR@/obj is
rendered as ./obj. -/
theorem c2_placeholder_amended_witness :
    extractMozObjdir ("# comment\nmk_add_options MOZ_OBJDIR=@TOPSRCDIR@/obj\n") =
      some ("./obj") :=
  c2_placeholder_amended ("# comment\nmk_add_options MOZ_OBJDIR=@TOPSRCDIR@/obj\n")
    [("# comment" : String).data] [[]]
    (("mk_add_options MOZ_OBJDIR=@TOPSRCDIR@/obj" : String).data)
    (("@TOPSRCDIR@/obj" : String).data)
    (by decide) (by decide) (by decide)

/-- C5: at a stable hook location whose file already exists, hook
synthesis leaves the filesystem (content and mtime alike) completely
unchanged when the existing content equals the new rendering, and
overwrites the file with the new rendering when it differs. -/
theorem c5_stable_write_only_on_change (dirs : List String) (env : Env) (fs : FS)
    (cwd tmp : String) (now : Nat) (mc cfgText objdir old : String)
    (hmc : env ("MOZCONFIG") = some mc)
    (hcf : fs.contentOf mc = some cfgText)
    (hex : extractMozObjdir cfgText = some objdir)
    (hold : fs.contentOf (resolvePath cwd (objdir ++ ("/.build_hook"))) = some old) :
    write_build_hook dirs env fs cwd tmp now =
      .ok ((if old = hookContent dirs then fs
            else fs.write (resolvePath cwd (objdir ++ ("/.build_hook")))
              (hookContent dirs) now),
           resolvePath cwd (objdir ++ ("/.build_hook"))) := by
  have hsome : (fs (resolvePath cwd (objdir ++ ("/.build_hook")))).isSome = true := by
    rcases h : fs (resolvePath cwd (objdir ++ ("/.build_hook"))) with _ | pr
    · rw [FS.contentOf, h] at hold
      exact Option.noConfusion hold
    · rfl
  simp only [write_build_hook, hmc, hcf, hex]
  rw [if_pos hsome]
  rw [hold]
  rw [Option.getD_some]
  split
  · rfl
  · rfl

/-- Witness for C5: a stable hook file with stale content is
overwritten (the conclusion keeps the decision as the conditional the
theorem states). -/
theorem c5_stable_write_only_on_change_witness :
    write_build_hook [("x")] envA fsStable ("/src") ("/t") 7 =
      .ok ((if ("stale") = hookContent [("x")] then fsStable
            else fsStable.write (resolvePath ("/src") (("/obj") ++ ("/.build_hook")))
              (hookContent [("x")]) 7),
           resolvePath ("/src") (("/obj") ++ ("/.build_hook"))) :=
  c5_stable_write_only_on_change [("x")] envA fsStable ("/src") ("/t") 7
    ("/home/u/mozconfig") ("mk_add_options MOZ_OBJDIR=/obj\n") ("/obj") ("stale")
    (by decide) (by decide) (by decide) (by decide)

/-- C9: hook synthesis fails with a KeyError on MOZCONFIG exactly when
MOZCONFIG is absent from the environment: the lookup is unconditional,
it happens before any file is created or written (the error result
carries no filesystem change), and under the precondition that
MOZCONFIG is set this failure is unreachable. -/
theorem c9_keyerror_iff_mozconfig_absent (dirs : List String) (env : Env)
    (fs : FS) (cwd tmp : String) (now : Nat) :
    write_build_hook dirs env fs cwd tmp now = .error (.keyErr ("MOZCONFIG")) ↔
      env ("MOZCONFIG") = none := by
  rcases hmc : env ("MOZCONFIG") with _ | mc
  · refine iff_of_true ?_ rfl
    simp [write_build_hook, hmc]
  · refine iff_of_false ?_ (by simp)
    rcases hcf : FS.contentOf fs mc with _ | cfgText
    · simp [write_build_hook, hmc, hcf]
    · rcases hex : extractMozObjdir cfgText with _ | objdir
      · simp [write_build_hook, hmc, hcf, hex]
      · simp only [write_build_hook, hmc, hcf, hex]
        split <;> split <;> simp

/-- C10: when the file named by MOZCONFIG does not exist, hook
synthesis aborts with the FileNotFoundError raised by open instead of
treating the build-output directory as not discoverable and falling
back to the temporary file. -/
theorem c10_missing_mozconfig_file (dirs : List String) (env : Env) (fs : FS)
    (cwd tmp : String) (now : Nat) (mc : String)
    (hmc : env ("MOZCONFIG") = some mc) (hfs : fs mc = none) :
    write_build_hook dirs env fs cwd tmp now = .error (.fileNotFound mc) := by
  have hcf : FS.contentOf fs mc = none := by
    unfold FS.contentOf
    rw [hfs]
    rfl
  simp [write_build_hook, hmc, hcf]

/-- Witness for C10: an environment pointing MOZCONFIG at a file that
is missing from an empty filesystem. -/
theorem c10_missing_mozconfig_file_witness :
    write_build_hook [] envA (fun _ => none) ("/src") ("/t") 0 =
      .error (.fileNotFound ("/home/u/mozconfig")) :=
  c10_missing_mozconfig_file [] envA (fun _ => none) ("/src") ("/t") 0
    ("/home/u/mozconfig") (by decide) rfl

/-- C6: in baseline resolution without an override, the merge-base
target is the upstream equivalent origin/<default-branch> when the
current branch equals the resolved default branch and the default
branch itself otherwise, and the returned baseline is the (stripped)
merge base of HEAD with that target. -/
theorem c6_upstream_target_on_default_branch (cfgBranch : Option String)
    (git : GitEnv) (db cbRaw out : String)
    (hdb : resolveDefaultBranch cfgBranch git = .ok db)
    (hcb : git.currentBranch = some cbRaw)
    (hmb : git.mergeBase ("HEAD")
      (if pyStrip cbRaw = db then ("origin/") ++ db else db) = some out) :
    get_local_merge_base none cfgBranch git = .ok (pyStrip out) := by
  simp only [get_local_merge_base, pyTruthy, Bool.false_eq_true, if_false, hdb, hcb, hmb]

/-- Witness for C6: HEAD is on the configured default branch main, so
the merge base is taken against origin/main (gitB answers base99 there
and other99 for any other target). -/
theorem c6_upstream_target_on_default_branch_witness :
    get_local_merge_base none (some ("main")) gitB = .ok (pyStrip ("base99\n")) :=
  c6_upstream_target_on_default_branch (some ("main")) gitB ("main")
    ("main\n") ("base99\n") rfl rfl rfl

/-- C4 (evaluation at the failing input): in the temporary-file
fallback the yielded path names a file whose on-disk content at the
yield is empty - the hook text was written into the unflushed user
space buffer of the NamedTemporaryFile - while the rendered artifact is
not empty, so the caller-visible contract of the stable branch (a file
containing the artifact) is broken. -/
theorem c4_temp_hook_not_flushed :
    (∃ fsY, write_build_hook [] envA fsNoObjdir ("/src") ("/tmp/hook.py") 5 =
        .ok (fsY, ("/tmp/hook.py")) ∧
      fsY.contentOf ("/tmp/hook.py") = some ("") ∧
      hookContent [] ≠ ("")) := by
  refine ⟨_, rfl, ?_, ?_⟩
  · rfl
  · decide

/-- C1 (evaluation at the failing input): with show_hook unset and a
non-empty mach argument vector, the driver launches ./mach with the
given arguments and propagates its exit code, but the environment at
the launch does not contain MOZ_BUILD_HOOK - the export happens only
inside the show_hook branch, contradicting the documented behaviour. -/
theorem c1_mach_launched_without_hook_export :
    (∃ envL, execute_mach none none false [] [] [("build")] worldA =
        .ok (.launched [("./mach"), ("build")] envL 7) ∧
      envL ("MOZ_BUILD_HOOK") = none) := by
  refine ⟨worldA.env, ?_, ?_⟩
  · rfl
  · decide

end Mozautodbg
